import Mathlib

/-!
Verification development for the Micro-Apps repository.

The repository's engineered core is the `ContextBridge` class in
`src/container/src/utils/contextBridge.ts` (a shared state bridge with
subscription/notification semantics) and the `ErrorBoundary` component in
`src/container/src/components/ErrorBoundary.tsx` (the fallback/isolation
layer).  The Remote Descriptor Store and Remote Loader described by the
specification have no implementation in the repository; they are modelled
from the specification text where a claim needs them.

The embedding below is shallow: the TypeScript class state becomes a Lean
structure, each method becomes a state-passing function, and the JavaScript
exception behaviour of `Array.prototype.forEach` (a throwing callback aborts
the iteration and the exception propagates to the caller) is made explicit
in the return type.
-/

/-- A subscriber callback registered on the bridge.  In JavaScript a callback
is a function reference: `subscribe` stores the reference, `unsubscribe`
filters by reference identity (`l !== listener`).  We model a function
reference by a numeric identity `id`, and record in `throwsErr` whether
invoking the callback throws an exception. -/
structure Listener where
  id : Nat
  throwsErr : Bool
deriving DecidableEq, Repr

/-- Source: `contextBridge.ts` lines 3-6, the `authState` field
`{ user: null as any, isAuthenticated: false }`.  The `any`-typed user
payload is a type parameter `U`. -/
structure AuthState (U : Type) where
  user : Option U
  isAuthenticated : Bool
deriving DecidableEq, Repr

/-- The theme discriminator, `"light" | "dark"` in the source. -/
inductive Theme where
  | light
  | dark
deriving DecidableEq, Repr

/-- Source: the `colors` record of `themeState` in `contextBridge.ts`. -/
structure Colors where
  primary : String
  secondary : String
  background : String
  text : String
deriving DecidableEq, Repr

/-- The light palette, from `contextBridge.ts` lines 10-15 (and repeated at
lines 43-48 inside `toggleTheme`). -/
def lightColors : Colors :=
  { primary := "#667eea", secondary := "#764ba2"
    background := "#ffffff", text := "#000000" }

/-- The dark palette, from `contextBridge.ts` lines 49-54. -/
def darkColors : Colors :=
  { primary := "#667eea", secondary := "#764ba2"
    background := "#0f0f23", text := "#ffffff" }

/-- Source: `contextBridge.ts` lines 8-16, the `themeState` field. -/
structure ThemeState where
  theme : Theme
  colors : Colors
deriving DecidableEq, Repr

/-- The whole private state of the `ContextBridge` class instance:
`authState`, `themeState` and the `listeners` array. -/
structure BridgeState (U : Type) where
  authState : AuthState U
  themeState : ThemeState
  listeners : List Listener

/-- The state of the module-level singleton `contextBridge` right after
`new ContextBridge()`: field initializers from `contextBridge.ts`
lines 3-18. -/
def initialBridge (U : Type) : BridgeState U :=
  { authState := { user := none, isAuthenticated := false }
    themeState := { theme := Theme.light, colors := lightColors }
    listeners := [] }

/-- Source: `contextBridge.ts` lines 70-72,
`private notifyListeners() { this.listeners.forEach((listener) => listener()); }`.
JavaScript `forEach` semantics: callbacks run in array order; a throwing
callback aborts the iteration and its exception propagates out of
`notifyListeners`.  The result is the list of callback ids that were invoked
(in invocation order) together with a flag telling whether an exception
escaped the pass. -/
def notifyListeners : List Listener → List Nat × Bool
  | [] => ([], false)
  | l :: rest =>
      if l.throwsErr then
        ([l.id], true)
      else
        let r := notifyListeners rest
        (l.id :: r.1, r.2)

/-- The observable outcome of one mutating bridge method: the new bridge
state, the ordered log of invoked subscriber ids, and whether an exception
propagated to the method's caller. -/
structure MutationResult (U : Type) where
  state : BridgeState U
  log : List Nat
  threw : Bool

/-- Source: `contextBridge.ts` lines 21-25, `login(user)`: sets
`authState.user = user`, `authState.isAuthenticated = true`, then calls
`notifyListeners()`. -/
def login {U : Type} (u : U) (s : BridgeState U) : MutationResult U :=
  let s1 := { s with authState := { user := some u, isAuthenticated := true } }
  let r := notifyListeners s1.listeners
  { state := s1, log := r.1, threw := r.2 }

/-- Source: `contextBridge.ts` lines 27-31, `logout()`. -/
def logout {U : Type} (s : BridgeState U) : MutationResult U :=
  let s1 := { s with authState := { user := none, isAuthenticated := false } }
  let r := notifyListeners s1.listeners
  { state := s1, log := r.1, threw := r.2 }

/-- Source: `contextBridge.ts` lines 38-56, `toggleTheme()`: flips
`themeState.theme`, then assigns `themeState.colors` according to the *new*
theme, then calls `notifyListeners()`. -/
def toggleThemeState (t : ThemeState) : ThemeState :=
  let newTheme := if t.theme = Theme.light then Theme.dark else Theme.light
  { theme := newTheme
    colors := if newTheme = Theme.light then lightColors else darkColors }

/-- The full `toggleTheme` method including the notification pass. -/
def toggleTheme {U : Type} (s : BridgeState U) : MutationResult U :=
  let s1 := { s with themeState := toggleThemeState s.themeState }
  let r := notifyListeners s1.listeners
  { state := s1, log := r.1, threw := r.2 }

/-- Source: `contextBridge.ts` lines 63-64, `subscribe(listener)`:
`this.listeners.push(listener)`. -/
def subscribe {U : Type} (l : Listener) (s : BridgeState U) : BridgeState U :=
  { s with listeners := s.listeners ++ [l] }

/-- Source: `contextBridge.ts` lines 65-67, the closure returned by
`subscribe`: `this.listeners = this.listeners.filter((x) => x !== listener)`.
Reference inequality `x !== listener` becomes inequality of `Listener`
values. -/
def unsubscribe {U : Type} (l : Listener) (s : BridgeState U) : BridgeState U :=
  { s with listeners := s.listeners.filter (fun x => x ≠ l) }

/-- When no registered callback throws, the `forEach` pass invokes every
callback in array order and no exception escapes. -/
theorem notifyListeners_no_throw (ls : List Listener)
    (h : ∀ l ∈ ls, l.throwsErr = false) :
    notifyListeners ls = (ls.map Listener.id, false) := by
  induction ls with
  | nil => rfl
  | cons l rest ih =>
      have hl : l.throwsErr = false := h l (List.mem_cons_self l rest)
      have hrest : ∀ x ∈ rest, x.throwsErr = false :=
        fun x hx => h x (List.mem_cons_of_mem l hx)
      simp [notifyListeners, hl, ih hrest]

/-- A `forEach` pass over `pre ++ t :: post` where everything in `pre` runs
normally and `t` throws: exactly `pre` and `t` are invoked, nothing in
`post` runs, and the exception escapes. -/
theorem notifyListeners_throw (pre post : List Listener) (t : Listener)
    (hpre : ∀ l ∈ pre, l.throwsErr = false) (ht : t.throwsErr = true) :
    notifyListeners (pre ++ t :: post) = (pre.map Listener.id ++ [t.id], true) := by
  induction pre with
  | nil => simp [notifyListeners, ht]
  | cons l rest ih =>
      have hl : l.throwsErr = false := hpre l (List.mem_cons_self l rest)
      have hrest : ∀ x ∈ rest, x.throwsErr = false :=
        fun x hx => hpre x (List.mem_cons_of_mem l hx)
      simp [notifyListeners, hl, ih hrest]

/-- The palette the source associates with each theme value. -/
def themePalette : Theme → Colors
  | Theme.light => lightColors
  | Theme.dark => darkColors

/-- The bridge states reachable from the singleton's initial state by the
public methods of `ContextBridge`. -/
inductive Reachable {U : Type} : BridgeState U → Prop
  | init : Reachable (initialBridge U)
  | login (u : U) (s : BridgeState U) : Reachable s → Reachable (login u s).state
  | logout (s : BridgeState U) : Reachable s → Reachable (logout s).state
  | toggleTheme (s : BridgeState U) : Reachable s → Reachable (toggleTheme s).state
  | subscribe (l : Listener) (s : BridgeState U) : Reachable s → Reachable (subscribe l s)
  | unsubscribe (l : Listener) (s : BridgeState U) : Reachable s → Reachable (unsubscribe l s)

/-- Every reachable bridge state keeps `colors` in sync with `theme`:
`toggleTheme` always writes the palette matching the new theme, and no other
method touches `themeState`. -/
theorem reachable_theme_inv {U : Type} {s : BridgeState U} (h : Reachable s) :
    s.themeState.colors = themePalette s.themeState.theme := by
  induction h with
  | init => rfl
  | login u s _ ih => simpa [login] using ih
  | logout s _ ih => simpa [logout] using ih
  | toggleTheme s _ _ =>
      cases ht : s.themeState.theme <;>
        simp [toggleTheme, toggleThemeState, themePalette, ht]
  | subscribe l s _ ih => simpa [subscribe] using ih
  | unsubscribe l s _ ih => simpa [unsubscribe] using ih

/-- On any theme state whose colors match its theme, one `toggleTheme`
application flips the theme and a second application restores the original
state exactly. -/
theorem toggleThemeState_involutive (t : ThemeState)
    (h : t.colors = themePalette t.theme) :
    toggleThemeState (toggleThemeState t) = t := by
  obtain ⟨th, co⟩ := t
  cases th <;> simp_all [toggleThemeState, themePalette, lightColors, darkColors]

/-- Fixture: a subscriber whose callback throws. -/
def throwerL : Listener := ⟨0, true⟩

/-- Fixture: a well-behaved subscriber. -/
def tameL : Listener := ⟨1, false⟩

/-- Fixture: a bridge whose first registered subscriber throws and whose
second is well-behaved. -/
def cexBridge : BridgeState Nat :=
  { authState := { user := none, isAuthenticated := false }
    themeState := { theme := Theme.light, colors := lightColors }
    listeners := [throwerL, tameL] }

/-- C1: the claim that a throwing subscriber does not prevent later
subscribers from running and that the exception is not propagated is false
for this code: with subscribers `[thrower, tame]`, `login` invokes only the
thrower (log `[0]`, the tame subscriber with id 1 never runs) and the
exception escapes to `login`'s caller (`threw = true`).  There is no
try/catch in `notifyListeners`. -/
theorem bridge_fault_isolation_cex :
    ¬((login 7 cexBridge).threw = false ∧ 1 ∈ (login 7 cexBridge).log) := by
  decide

/-- C1 (amended): when the subscriber list is `pre ++ t :: post` with `pre`
well-behaved and `t` throwing, a `login` call invokes exactly `pre` then `t`
(nothing in `post` runs), the exception propagates to `login`'s caller, and
the auth-state write itself has already taken effect. -/
theorem bridge_notify_throw_aborts {U : Type} (u : U) (s : BridgeState U)
    (pre post : List Listener) (t : Listener)
    (hsplit : s.listeners = pre ++ t :: post)
    (hpre : ∀ l ∈ pre, l.throwsErr = false) (ht : t.throwsErr = true) :
    (login u s).log = pre.map Listener.id ++ [t.id]
    ∧ (login u s).threw = true
    ∧ (login u s).state.authState = { user := some u, isAuthenticated := true } := by
  simp [login, hsplit, notifyListeners_throw pre post t hpre ht]

/-- Witness for the amended C1 at a concrete bridge. -/
theorem bridge_notify_throw_aborts_witness :
    (login (7 : Nat) cexBridge).log = [0]
    ∧ (login (7 : Nat) cexBridge).threw = true
    ∧ (login (7 : Nat) cexBridge).state.authState
        = { user := some 7, isAuthenticated := true } := by
  simpa [throwerL] using
    bridge_notify_throw_aborts (7 : Nat) cexBridge [] [tameL] throwerL rfl
      (by simp) rfl

/-- C2: subscribers registered in order `A, B, C` are notified in exactly
that order by a mutating call, and after invoking `B`'s unsubscribe handle a
subsequent mutating call notifies exactly `A` then `C`. -/
theorem bridge_subscriber_order {U : Type} (u : U) (s : BridgeState U)
    (a b c : Listener) (hs : s.listeners = [])
    (hab : a ≠ b) (hcb : c ≠ b)
    (ha : a.throwsErr = false) (hb : b.throwsErr = false)
    (hc : c.throwsErr = false) :
    (login u (subscribe c (subscribe b (subscribe a s)))).log = [a.id, b.id, c.id]
    ∧ (login u (unsubscribe b (subscribe c (subscribe b (subscribe a s))))).log
        = [a.id, c.id] := by
  simp [login, subscribe, unsubscribe, hs, notifyListeners, ha, hb, hc, hab, hcb]

/-- Witness for C2 with three concrete distinct subscribers. -/
theorem bridge_subscriber_order_witness :
    (login (0 : Nat)
        (subscribe ⟨3, false⟩ (subscribe ⟨2, false⟩
          (subscribe ⟨1, false⟩ (initialBridge Nat))))).log = [1, 2, 3]
    ∧ (login (0 : Nat)
        (unsubscribe ⟨2, false⟩ (subscribe ⟨3, false⟩ (subscribe ⟨2, false⟩
          (subscribe ⟨1, false⟩ (initialBridge Nat)))))).log = [1, 3] := by
  simpa using
    bridge_subscriber_order (0 : Nat) (initialBridge Nat)
      ⟨1, false⟩ ⟨2, false⟩ ⟨3, false⟩ rfl (by decide) (by decide) rfl rfl rfl

/-- C3: every mutating method (`login`, `logout`, `toggleTheme`) runs exactly
one synchronous notification pass over all currently-registered subscribers
before returning, unconditionally in the current state — in particular also
when the written value is identical to the previous one (the state `s` is
arbitrary, including already-logged-in or already-logged-out states). -/
theorem bridge_mutation_always_notifies {U : Type} (u : U) (s : BridgeState U)
    (h : ∀ l ∈ s.listeners, l.throwsErr = false) :
    (login u s).log = s.listeners.map Listener.id
    ∧ (logout s).log = s.listeners.map Listener.id
    ∧ (toggleTheme s).log = s.listeners.map Listener.id := by
  simp [login, logout, toggleTheme, notifyListeners_no_throw _ h]

/-- Fixture: a bridge already logged in as user 7, with two subscribers, so
that `login 7` writes a structurally identical value. -/
def idemBridge : BridgeState Nat :=
  { authState := { user := some 7, isAuthenticated := true }
    themeState := { theme := Theme.light, colors := lightColors }
    listeners := [⟨1, false⟩, ⟨2, false⟩] }

/-- Witness for C3: even a `login` writing a value identical to the current
auth state fires the full notification pass. -/
theorem bridge_mutation_always_notifies_witness :
    (login (7 : Nat) idemBridge).log = [1, 2]
    ∧ (logout idemBridge).log = [1, 2]
    ∧ (toggleTheme idemBridge).log = [1, 2] := by
  simpa [idemBridge] using
    bridge_mutation_always_notifies (7 : Nat) idemBridge (by decide)

/-- Fixture: a callback reference subscribed twice. -/
def dupL : Listener := ⟨5, false⟩

/-- Fixture: a bridge on which the same callback reference was subscribed
twice. -/
def dupBridge : BridgeState Nat :=
  { authState := { user := none, isAuthenticated := false }
    themeState := { theme := Theme.light, colors := lightColors }
    listeners := [dupL, dupL] }

/-- C4: the claim that invoking one unsubscribe handle leaves a second
registration of the same callback function in place is false: the handle
filters by reference identity (`l !== listener`), so it removes *both*
registrations of the same function, leaving the list empty rather than
`[dupL]`. -/
theorem bridge_unsubscribe_duplicate_cex :
    (unsubscribe dupL dupBridge).listeners = []
    ∧ (unsubscribe dupL dupBridge).listeners ≠ [dupL] := by
  decide

/-- C4 (amended): invoking an unsubscribe handle removes *every* registration
of that callback reference (duplicates included), registrations of any other
callback are preserved, and invoking the handle a second time is a no-op. -/
theorem bridge_unsubscribe_semantics {U : Type} (l : Listener) (s : BridgeState U) :
    l ∉ (unsubscribe l s).listeners
    ∧ (∀ m : Listener, m ≠ l →
        ((m ∈ (unsubscribe l s).listeners) ↔ m ∈ s.listeners))
    ∧ unsubscribe l (unsubscribe l s) = unsubscribe l s := by
  obtain ⟨au, th, ls⟩ := s
  refine ⟨?_, ?_, ?_⟩
  · simp [unsubscribe, List.mem_filter]
  · intro m hm
    simp [unsubscribe, List.mem_filter, hm]
  · simp [unsubscribe, List.filter_filter]

/-- Fixture: a bridge holding a duplicated callback and one distinct
callback. -/
def tripBridge : BridgeState Nat :=
  { authState := { user := none, isAuthenticated := false }
    themeState := { theme := Theme.light, colors := lightColors }
    listeners := [dupL, ⟨6, false⟩, dupL] }

/-- Witness for the amended C4 at a concrete bridge. -/
theorem bridge_unsubscribe_semantics_witness :
    dupL ∉ (unsubscribe dupL tripBridge).listeners
    ∧ ((⟨6, false⟩ : Listener) ∈ (unsubscribe dupL tripBridge).listeners
        ↔ (⟨6, false⟩ : Listener) ∈ tripBridge.listeners)
    ∧ unsubscribe dupL (unsubscribe dupL tripBridge) = unsubscribe dupL tripBridge :=
  ⟨(bridge_unsubscribe_semantics dupL tripBridge).1,
   (bridge_unsubscribe_semantics dupL tripBridge).2.1 ⟨6, false⟩ (by decide),
   (bridge_unsubscribe_semantics dupL tripBridge).2.2⟩

/-- C9: on every reachable bridge state, one `toggleTheme` maps light to dark
(and dark to light) installing the matching palette, and applying
`toggleTheme` twice restores the theme state — theme field and colors record
— exactly. -/
theorem toggleTheme_involution_reachable {U : Type} (s : BridgeState U)
    (h : Reachable s) :
    (toggleTheme (toggleTheme s).state).state.themeState = s.themeState
    ∧ (toggleTheme s).state.themeState.theme
        = (if s.themeState.theme = Theme.light then Theme.dark else Theme.light)
    ∧ (toggleTheme s).state.themeState.colors
        = themePalette (toggleTheme s).state.themeState.theme := by
  have hinv := reachable_theme_inv h
  refine ⟨?_, ?_, ?_⟩
  · simpa [toggleTheme] using toggleThemeState_involutive s.themeState hinv
  · simp [toggleTheme, toggleThemeState]
  · cases ht : s.themeState.theme <;>
      simp [toggleTheme, toggleThemeState, themePalette, ht]

/-- Witness for C9 at the singleton's initial state. -/
theorem toggleTheme_involution_reachable_witness :
    (toggleTheme (toggleTheme (initialBridge Nat)).state).state.themeState
        = (initialBridge Nat).themeState
    ∧ (toggleTheme (initialBridge Nat)).state.themeState.theme
        = (if (initialBridge Nat).themeState.theme = Theme.light
            then Theme.dark else Theme.light)
    ∧ (toggleTheme (initialBridge Nat)).state.themeState.colors
        = themePalette (toggleTheme (initialBridge Nat)).state.themeState.theme :=
  toggleTheme_involution_reachable (initialBridge Nat) Reachable.init

/-- Modelled from the spec: the repository contains no Remote Loader
implementation (remote loading is performed by the Webpack Module Federation
runtime, outside `src/`); this is the per-name `LoadState` of spec §3 with a
`Loading` state carrying the list of attached requesters. -/
inductive LState where
  | NotLoaded
  | Loading (waiters : List Nat)
  | Loaded (handle : Nat)
  | Failed (err : String)
deriving DecidableEq, Repr

/-- The loader's per-name state together with a counter of underlying
fetches issued, so that the request-coalescing property is observable. -/
structure LoaderState where
  st : LState
  fetchCount : Nat
deriving DecidableEq, Repr

/-- A name starts `NotLoaded` with no fetch issued. -/
def initLoader : LoaderState := { st := LState.NotLoaded, fetchCount := 0 }

/-- Modelled from the spec (§4.2 `load`): `Loaded` returns the cached handle
(no state change); `Loading` attaches the caller to the pending operation;
`NotLoaded` and `Failed` transition to `Loading` and issue one fetch. -/
def loadReq (caller : Nat) (s : LoaderState) : LoaderState :=
  match s.st with
  | LState.NotLoaded => { st := LState.Loading [caller], fetchCount := s.fetchCount + 1 }
  | LState.Loading ws => { s with st := LState.Loading (ws ++ [caller]) }
  | LState.Loaded _ => s
  | LState.Failed _ => { st := LState.Loading [caller], fetchCount := s.fetchCount + 1 }

/-- Modelled from the spec (§4.2): completion of the fetch transitions
`Loading → Loaded` and delivers the handle to every attached caller;
the returned list pairs each notified caller with the result it observes. -/
def resolveLoad (h : Nat) (s : LoaderState) : LoaderState × List (Nat × Nat) :=
  match s.st with
  | LState.Loading ws => ({ s with st := LState.Loaded h }, ws.map (fun c => (c, h)))
  | _ => (s, [])

/-- A sequence of `load` calls folded over the loader state. -/
def loadAll (cs : List Nat) (s : LoaderState) : LoaderState :=
  cs.foldl (fun st cl => loadReq cl st) s

/-- Further `load` calls during an in-flight `Loading` only append waiters:
no new fetch is issued. -/
theorem loadAll_loading (cs ws : List Nat) (n : Nat) :
    loadAll cs { st := LState.Loading ws, fetchCount := n }
      = { st := LState.Loading (ws ++ cs), fetchCount := n } := by
  induction cs generalizing ws with
  | nil => simp [loadAll]
  | cons x xs ih =>
      have hstep : loadReq x { st := LState.Loading ws, fetchCount := n }
          = { st := LState.Loading (ws ++ [x]), fetchCount := n } := rfl
      have h2 := ih (ws ++ [x])
      simp only [loadAll, List.foldl_cons, hstep] at h2 ⊢
      rw [h2]
      simp [List.append_assoc]

/-- C5: for any first caller `c` and any further callers `cs` arriving before
resolution, exactly one underlying fetch is issued, the single in-flight
`Loading` holds all requesters in arrival order, and on resolution every
caller observes the same handle. -/
theorem loader_request_coalescing (c : Nat) (cs : List Nat) (h : Nat) :
    (loadAll cs (loadReq c initLoader)).fetchCount = 1
    ∧ (loadAll cs (loadReq c initLoader)).st = LState.Loading (c :: cs)
    ∧ (resolveLoad h (loadAll cs (loadReq c initLoader))).1.st = LState.Loaded h
    ∧ (resolveLoad h (loadAll cs (loadReq c initLoader))).2
        = (c :: cs).map (fun x => (x, h)) := by
  have h1 : loadReq c initLoader
      = { st := LState.Loading [c], fetchCount := 1 } := rfl
  rw [h1, loadAll_loading]
  simp [resolveLoad]

/-- Modelled from the spec (§3, §4.1): the Remote Descriptor Store's entry
type; the repository has no such store (remotes are named statically in the
webpack configuration). -/
structure RemoteDescriptor where
  name : String
  entryUrl : String
  exposedModules : List (String × String)
deriving DecidableEq, Repr

/-- The registry-level error taxonomy of spec §7. -/
inductive RegistryError where
  | DuplicateNameError
  | InvalidDescriptorError
  | UnknownRemoteError
deriving DecidableEq, Repr

/-- Modelled from the spec (§4.1 `register`): fails with
`DuplicateNameError` if the name is already present, with
`InvalidDescriptorError` if `entryUrl` or `exposedModules` is empty, and
otherwise appends the descriptor.  The result carries the (possibly
unchanged) store so atomicity on error is observable. -/
def register (d : RemoteDescriptor) (s : List RemoteDescriptor) :
    List RemoteDescriptor × Option RegistryError :=
  if s.any (fun e => e.name = d.name) then
    (s, some RegistryError.DuplicateNameError)
  else if d.entryUrl = "" ∨ d.exposedModules = [] then
    (s, some RegistryError.InvalidDescriptorError)
  else
    (s ++ [d], none)

/-- C6: registering a descriptor whose name is already present fails with
`DuplicateNameError` and leaves the store exactly as it was. -/
theorem register_duplicate_atomic (d : RemoteDescriptor)
    (s : List RemoteDescriptor) (h : ∃ e ∈ s, e.name = d.name) :
    register d s = (s, some RegistryError.DuplicateNameError) := by
  have hany : s.any (fun e => e.name = d.name) = true := by
    rw [List.any_eq_true]
    obtain ⟨e, he, hn⟩ := h
    exact ⟨e, he, by simp [hn]⟩
  simp [register, hany]

/-- Fixture: a registered `cart` descriptor. -/
def cartDescr : RemoteDescriptor :=
  { name := "cart", entryUrl := "https://x/cart.js"
    exposedModules := [("Widget", "./Widget")] }

/-- Fixture: a second descriptor with the same name and a different URL. -/
def cartDescr2 : RemoteDescriptor :=
  { name := "cart", entryUrl := "https://y/cart.js"
    exposedModules := [("Widget", "./Widget")] }

/-- Witness for C6 at a concrete one-entry store. -/
theorem register_duplicate_atomic_witness :
    register cartDescr2 [cartDescr]
      = ([cartDescr], some RegistryError.DuplicateNameError) :=
  register_duplicate_atomic cartDescr2 [cartDescr]
    ⟨cartDescr, by simp, rfl⟩

/-- Source: `ErrorBoundary.tsx` lines 9-12 and 15-17, the component state
`{ hasError: boolean, error?: Error }`; an `Error` is modelled by its
message string. -/
structure EBState where
  hasError : Bool
  error : Option String
deriving DecidableEq, Repr

/-- Source: `ErrorBoundary.tsx` lines 15-17, the initial state
`{ hasError: false }`. -/
def initialEBState : EBState := { hasError := false, error := none }

/-- Source: `ErrorBoundary.tsx` lines 19-21,
`getDerivedStateFromError(error) { return { hasError: true, error }; }`. -/
def getDerivedStateFromError (e : String) : EBState :=
  { hasError := true, error := some e }

/-- What one boundary renders: its designated fallback view (carrying the
caught error's details) or its children (the wrapped remote's content). -/
inductive Rendered where
  | fallbackView (detail : Option String)
  | childrenView
deriving DecidableEq, Repr

/-- Source: `ErrorBoundary.tsx` lines 32-82, `render()`: when
`state.hasError` is set it returns `props.fallback` or the default fallback
markup (which displays `state.error`); otherwise it returns
`props.children`. -/
def render (s : EBState) : Rendered :=
  if s.hasError then Rendered.fallbackView s.error else Rendered.childrenView

/-- Source: `ErrorBoundary.tsx` line 64, the retry button's handler:
`this.setState({ hasError: false, error: undefined })`.  It takes the
current state and replaces both fields. -/
def retryClick (s : EBState) : EBState :=
  { s with hasError := false, error := none }

/-- The state visible around one error boundary: the boundary's own state
paired with the load state of the remote it wraps (held by the
module-loading runtime's cache, outside the boundary).  The retry handler
only calls `setState` on the boundary — it performs no loader interaction —
so the loader component is passed through unchanged. -/
def boundaryRetry (s : EBState × LoaderState) : EBState × LoaderState :=
  (retryClick s.1, s.2)

/-- C7: the claim that `retry()` re-invokes the loader's `load` after first
bypassing the cache via `invalidate` is false for this code: with the remote
cached as `Loaded 7` after one fetch, clicking retry leaves the loader state
untouched — it is not reset to `NotLoaded` (no `invalidate`) and no second
fetch is issued (no re-invoked `load`); the handler only clears the
boundary's own error flag. -/
theorem errorBoundary_retry_cex :
    (boundaryRetry ({ hasError := true, error := some "boom" },
        { st := LState.Loaded 7, fetchCount := 1 })).2
      = { st := LState.Loaded 7, fetchCount := 1 }
    ∧ (boundaryRetry ({ hasError := true, error := some "boom" },
        { st := LState.Loaded 7, fetchCount := 1 })).2.fetchCount ≠ 2
    ∧ (boundaryRetry ({ hasError := true, error := some "boom" },
        { st := LState.Loaded 7, fetchCount := 1 })).2.st ≠ LState.NotLoaded := by
  decide

/-- C7 (amended): a boundary in the error state renders the designated
fallback view (with the caught error's details) instead of the remote's
content and exposes the retry operation; invoking retry clears the
boundary's error state so the children render again on the next pass, but it
performs no cache invalidation and no loader re-invocation — the wrapped
remote's load state is unchanged. -/
theorem errorBoundary_fallback_and_retry (s : EBState) (hs : s.hasError = true) :
    render s = Rendered.fallbackView s.error
    ∧ render (retryClick s) = Rendered.childrenView
    ∧ (∀ ls : LoaderState,
        (boundaryRetry (s, ls)).2 = ls
        ∧ (boundaryRetry (s, ls)).1 = { hasError := false, error := none }) := by
  refine ⟨by simp [render, hs], by simp [render, retryClick], fun ls => ⟨rfl, ?_⟩⟩
  simp [boundaryRetry, retryClick]

/-- Witness for the amended C7 at a concrete errored boundary. -/
theorem errorBoundary_fallback_and_retry_witness :
    render { hasError := true, error := some "boom" }
      = Rendered.fallbackView (some "boom")
    ∧ render (retryClick { hasError := true, error := some "boom" })
      = Rendered.childrenView
    ∧ (boundaryRetry ({ hasError := true, error := some "boom" },
        { st := LState.Loaded 7, fetchCount := 1 })).2
      = { st := LState.Loaded 7, fetchCount := 1 }
    ∧ (boundaryRetry ({ hasError := true, error := some "boom" },
        { st := LState.Loaded 7, fetchCount := 1 })).1
      = { hasError := false, error := none } := by
  have h := errorBoundary_fallback_and_retry
    { hasError := true, error := some "boom" } rfl
  exact ⟨h.1, h.2.1, (h.2.2 { st := LState.Loaded 7, fetchCount := 1 }).1,
    (h.2.2 { st := LState.Loaded 7, fetchCount := 1 }).2⟩

/-- The host page with several mounted remotes: one `ErrorBoundary` state
per remote and each remote's load state.  Each boundary instance owns its
React state (`this.state`), so React applies `getDerivedStateFromError` to
the instance whose subtree threw, and only to it. -/
structure SysState where
  boundaries : List EBState
  loadStates : List LoaderState
deriving DecidableEq, Repr

/-- A runtime error caught by the boundary at position `i`: that instance's
state is replaced by `getDerivedStateFromError e`; nothing else is
touched. -/
def catchErrorAt (i : Nat) (e : String) (sys : SysState) : SysState :=
  { sys with boundaries := sys.boundaries.set i (getDerivedStateFromError e) }

/-- C8: a runtime error caught in one mounted remote's boundary changes only
that boundary's own error state: every other boundary's mount/error state
and every remote's `LoadState` are unchanged, while the catching boundary
(when it exists) does record the error. -/
theorem errorBoundary_isolation (sys : SysState) (i j : Nat) (e : String)
    (hij : j ≠ i) :
    (catchErrorAt i e sys).boundaries[j]? = sys.boundaries[j]?
    ∧ (catchErrorAt i e sys).loadStates = sys.loadStates
    ∧ (i < sys.boundaries.length →
        (catchErrorAt i e sys).boundaries[i]?
          = some (getDerivedStateFromError e)) := by
  refine ⟨?_, rfl, fun hi => ?_⟩
  · simp [catchErrorAt, List.getElem?_set_ne (Ne.symm hij)]
  · simp [catchErrorAt, List.getElem?_set_eq_of_lt _ hi]

/-- Fixture: a host page with two mounted remotes, both healthy. -/
def twoRemoteSys : SysState :=
  { boundaries := [initialEBState, initialEBState]
    loadStates := [{ st := LState.Loaded 3, fetchCount := 1 },
                   { st := LState.Loaded 4, fetchCount := 1 }] }

/-- Witness for C8: a crash caught in remote 0's boundary leaves remote 1's
boundary and every load state untouched. -/
theorem errorBoundary_isolation_witness :
    (catchErrorAt 0 "crash" twoRemoteSys).boundaries[1]?
      = twoRemoteSys.boundaries[1]?
    ∧ (catchErrorAt 0 "crash" twoRemoteSys).loadStates = twoRemoteSys.loadStates
    ∧ (0 < twoRemoteSys.boundaries.length →
        (catchErrorAt 0 "crash" twoRemoteSys).boundaries[0]?
          = some (getDerivedStateFromError "crash")) :=
  errorBoundary_isolation twoRemoteSys 0 1 "crash" (by decide)

/-- The auth object stored at address `a` of an object heap; addresses are
list indices, a missing address reads as a default object. -/
def authObjAt (h : List (AuthState Nat)) (a : Nat) : AuthState Nat :=
  h.getD a { user := none, isAuthenticated := false }

/-- Heap-level model of `getAuthState` (`contextBridge.ts` lines 33-35):
`return { ...this.authState }` allocates a *fresh* object whose top-level
fields are copied from the bridge's private object at address `a`.
Allocation appends to the heap; the fresh object's address is returned. -/
def getAuthStateAlloc (h : List (AuthState Nat)) (a : Nat) :
    List (AuthState Nat) × Nat :=
  (h ++ [authObjAt h a], h.length)

/-- A JavaScript top-level field assignment `obj.user = v` through the
reference `r`. -/
def setAuthUserField (h : List (AuthState Nat)) (r : Nat) (v : Option Nat) :
    List (AuthState Nat) :=
  h.set r { authObjAt h r with user := v }

/-- A JavaScript top-level field assignment `obj.isAuthenticated = b`
through the reference `r`. -/
def setAuthFlagField (h : List (AuthState Nat)) (r : Nat) (b : Bool) :
    List (AuthState Nat) :=
  h.set r { authObjAt h r with isAuthenticated := b }

/-- The theme object stored at address `t` of an object heap. -/
def themeObjAt (h : List ThemeState) (t : Nat) : ThemeState :=
  h.getD t { theme := Theme.light, colors := lightColors }

/-- Heap-level model of `getThemeState` (`contextBridge.ts` lines 58-60):
`return { ...this.themeState }` allocates a fresh shallow copy of the
bridge's theme object. -/
def getThemeStateAlloc (h : List ThemeState) (t : Nat) :
    List ThemeState × Nat :=
  (h ++ [themeObjAt h t], h.length)

/-- A JavaScript top-level field assignment `obj.theme = v` through the
reference `r`. -/
def setThemeField (h : List ThemeState) (r : Nat) (v : Theme) :
    List ThemeState :=
  h.set r { themeObjAt h r with theme := v }

/-- Reading an address a freshly-set *other* address does not see the
write. -/
theorem getD_set_ne {α : Type} (l : List α) (r a : Nat) (y d : α)
    (hne : r ≠ a) : (l.set r y).getD a d = l.getD a d := by
  simp [List.getD_eq_getElem?_getD, List.getElem?_set_ne hne]

/-- C10: `getAuthState` and `getThemeState` return a fresh shallow copy: the
returned reference is distinct from the bridge's private object, the copy
carries the same top-level field values, the getter leaves the bridge's
object untouched, and assigning to any top-level field of the returned
object leaves the object observed by the bridge (and by any subsequent
getter call) unchanged. -/
theorem getters_return_fresh_copy (ha : List (AuthState Nat)) (a : Nat)
    (hla : a < ha.length) (v : Option Nat) (b : Bool)
    (ht : List ThemeState) (t : Nat) (hlt : t < ht.length) (th : Theme) :
    (getAuthStateAlloc ha a).2 ≠ a
    ∧ authObjAt (getAuthStateAlloc ha a).1 (getAuthStateAlloc ha a).2
        = authObjAt ha a
    ∧ authObjAt (getAuthStateAlloc ha a).1 a = authObjAt ha a
    ∧ authObjAt
        (setAuthUserField (getAuthStateAlloc ha a).1 (getAuthStateAlloc ha a).2 v)
        a = authObjAt ha a
    ∧ authObjAt
        (setAuthFlagField (getAuthStateAlloc ha a).1 (getAuthStateAlloc ha a).2 b)
        a = authObjAt ha a
    ∧ (getThemeStateAlloc ht t).2 ≠ t
    ∧ themeObjAt (getThemeStateAlloc ht t).1 (getThemeStateAlloc ht t).2
        = themeObjAt ht t
    ∧ themeObjAt (getThemeStateAlloc ht t).1 t = themeObjAt ht t
    ∧ themeObjAt
        (setThemeField (getThemeStateAlloc ht t).1 (getThemeStateAlloc ht t).2 th)
        t = themeObjAt ht t := by
  have hfa : (ha.length : Nat) ≠ a := Nat.ne_of_gt hla
  have hft : (ht.length : Nat) ≠ t := Nat.ne_of_gt hlt
  have hcopya : authObjAt (ha ++ [authObjAt ha a]) ha.length = authObjAt ha a := by
    unfold authObjAt
    rw [List.getD_append_right _ _ _ _ (Nat.le_refl _), Nat.sub_self]
    rfl
  have holda : authObjAt (ha ++ [authObjAt ha a]) a = authObjAt ha a := by
    unfold authObjAt
    rw [List.getD_append _ _ _ _ hla]
  have hcopyt : themeObjAt (ht ++ [themeObjAt ht t]) ht.length = themeObjAt ht t := by
    unfold themeObjAt
    rw [List.getD_append_right _ _ _ _ (Nat.le_refl _), Nat.sub_self]
    rfl
  have holdt : themeObjAt (ht ++ [themeObjAt ht t]) t = themeObjAt ht t := by
    unfold themeObjAt
    rw [List.getD_append _ _ _ _ hlt]
  have hseta : ∀ y, authObjAt ((ha ++ [authObjAt ha a]).set ha.length y) a
      = authObjAt ha a := by
    intro y
    unfold authObjAt
    rw [getD_set_ne _ _ _ _ _ hfa, List.getD_append _ _ _ _ hla]
  have hsett : ∀ y, themeObjAt ((ht ++ [themeObjAt ht t]).set ht.length y) t
      = themeObjAt ht t := by
    intro y
    unfold themeObjAt
    rw [getD_set_ne _ _ _ _ _ hft, List.getD_append _ _ _ _ hlt]
  exact ⟨hfa, hcopya, holda, hseta _, hseta _, hft, hcopyt, holdt, hsett _⟩

/-- Witness for C10 on a concrete one-object heap for each getter. -/
theorem getters_return_fresh_copy_witness :
    (getAuthStateAlloc [{ user := some 1, isAuthenticated := true }] 0).2 ≠ 0
    ∧ authObjAt
        (setAuthUserField
          (getAuthStateAlloc [{ user := some 1, isAuthenticated := true }] 0).1
          (getAuthStateAlloc [{ user := some 1, isAuthenticated := true }] 0).2
          none)
        0 = authObjAt [{ user := some 1, isAuthenticated := true }] 0
    ∧ themeObjAt
        (setThemeField
          (getThemeStateAlloc [{ theme := Theme.dark, colors := darkColors }] 0).1
          (getThemeStateAlloc [{ theme := Theme.dark, colors := darkColors }] 0).2
          Theme.light)
        0 = themeObjAt [{ theme := Theme.dark, colors := darkColors }] 0 := by
  have h := getters_return_fresh_copy
    [{ user := some 1, isAuthenticated := true }] 0 (by decide) none true
    [{ theme := Theme.dark, colors := darkColors }] 0 (by decide) Theme.light
  exact ⟨h.1, h.2.2.2.1, h.2.2.2.2.2.2.2.2⟩
